import Mathlib


/-!
Verification of the event-polling / deduplication / per-item orchestration /
result-cache core of the bilibili-auto-replay-bot repository.

The Python source is shallowly embedded: each class becomes a structure whose
methods are pure state-passing functions.  Machine integers are modelled as
`Nat` (all quantities involved are non-negative timestamps, sizes and ids);
Python strings are sequences of code points, modelled as `String` / `List Char`;
fallible collaborator calls are modelled with `Except Unit`.
-/

/- ────────────────────────────────────────────────────────────────────────
   src/bot/cache.py — SummaryCache (LRU + TTL)

   The Python `OrderedDict` is modelled as a list of entries, oldest-first;
   the last element is the most-recently-used position.  `time.monotonic()`
   is passed in explicitly as `now : Nat`.
   ──────────────────────────────────────────────────────────────────────── -/

/-- One cache entry: `self._cache[bvid] = (content, expire_at)`. -/
structure CacheEntry where
  key : String
  content : String
  expireAt : Nat
deriving DecidableEq, Repr

/-- The `SummaryCache` object state: `_ttl`, `_max_size`, `_cache` (ordered,
oldest first), `_hits`, `_misses`. -/
structure SummaryCache where
  ttl : Nat
  max_size : Nat
  entries : List CacheEntry
  hits : Nat
  misses : Nat
deriving DecidableEq, Repr

/-- Python `SummaryCache.__init__`. -/
def SummaryCache.init (ttl max_size : Nat) : SummaryCache :=
  { ttl := ttl, max_size := max_size, entries := [], hits := 0, misses := 0 }

/-- Python `SummaryCache.get`.  Returns the looked-up content (or `none`) together
with the updated cache state.  `self._cache.get(bvid)` is `List.find?`;
`del self._cache[bvid]` is a filter on the key; `move_to_end` removes the
entry and re-appends it at the most-recently-used (last) position.
The expiry test `time.monotonic() > expire_at` is `e.expireAt < now`. -/
def SummaryCache.get (s : SummaryCache) (bvid : String) (now : Nat) :
    Option String × SummaryCache :=
  match s.entries.find? (fun e => e.key == bvid) with
  | none => (none, { s with misses := s.misses + 1 })
  | some e =>
    if e.expireAt < now then
      (none, { s with entries := s.entries.filter (fun e2 => !(e2.key == bvid)),
                      misses := s.misses + 1 })
    else
      (some e.content,
        { s with entries := s.entries.filter (fun e2 => !(e2.key == bvid)) ++ [e],
                 hits := s.hits + 1 })

/-- The eviction loop of `SummaryCache.put`:
`while len(self._cache) >= self._max_size: self._cache.popitem(last=False)`.
`none` models the `KeyError` that `popitem` raises on an empty dict (reachable
only when `max_size = 0`). -/
def SummaryCache.evict (max_size : Nat) : List CacheEntry → Option (List CacheEntry)
  | [] => if 0 < max_size then some [] else none
  | e :: t => if t.length + 1 < max_size then some (e :: t) else SummaryCache.evict max_size t

/-- Python `SummaryCache.put`.  The `Bool` is `true` on normal completion and `false`
when the eviction loop raised (in which case every entry has been popped).
Assignment to an existing `OrderedDict` key followed by `move_to_end` is the
same as erasing the key and appending the fresh entry at the end. -/
def SummaryCache.put (s : SummaryCache) (bvid content : String) (now : Nat) :
    SummaryCache × Bool :=
  match SummaryCache.evict s.max_size s.entries with
  | none => ({ s with entries := [] }, false)
  | some l =>
    ({ s with entries := l.filter (fun e2 => !(e2.key == bvid)) ++
                [{ key := bvid, content := content, expireAt := now + s.ttl }] },
      true)

/-- A client-visible cache operation, used to state whole-history invariants. -/
inductive CacheOp where
  | get (bvid : String) (now : Nat)
  | put (bvid content : String) (now : Nat)
deriving DecidableEq, Repr

/-- Apply one operation to the cache state (a raising `put` leaves the state
the eviction loop produced, exactly as the Python exception would). -/
def SummaryCache.applyOp (s : SummaryCache) : CacheOp → SummaryCache
  | .get bvid now => (s.get bvid now).2
  | .put bvid content now => (s.put bvid content now).1

/-- Run a whole history of operations from a given state. -/
def SummaryCache.runOps (s : SummaryCache) (ops : List CacheOp) : SummaryCache :=
  ops.foldl SummaryCache.applyOp s

/-- The 2-entry scenario of the spec: put(A), put(B), get(A), put(C). -/
def scenarioOps : List CacheOp :=
  [CacheOp.put "A" "sa" 0, CacheOp.put "B" "sb" 1, CacheOp.get "A" 2,
   CacheOp.put "C" "sc" 3]

/- ────────────────────────────────────────────────────────────────────────
   src/bilibili/models.py — domain records
   ──────────────────────────────────────────────────────────────────────── -/

/-- Record `AtNotification` (src/bilibili/models.py). -/
structure AtNotification where
  at_id : Nat
  source_id : Nat
  root_id : Nat
  sender_uid : Nat
  sender_name : String
  bvid : String
  oid : Nat
  content : String
  timestamp : Nat
deriving DecidableEq, Repr

/- ────────────────────────────────────────────────────────────────────────
   src/bot/monitor.py — AtMonitor

   `self._processed_ids : dict[int, int]` is an insertion-ordered dict,
   modelled as a list of (at_id, timestamp) pairs, oldest insertion first.
   The processor collaborator is an oracle `outcome : AtNotification →
   ProcessOutcome`; `_poll_once` only logs the outcome, so the oracle must
   not influence the monitor state.
   ──────────────────────────────────────────────────────────────────────── -/

/-- The monitor state mutated by `_initialize` / `_poll_once`. -/
structure MonitorState where
  last_at_time : Nat
  processed_ids : List (Nat × Nat)
  max_processed_ids : Nat
deriving DecidableEq, Repr

/-- Outcome of one `processor.process(notif)` call as seen by the monitor:
returned True, returned False, or raised. -/
inductive ProcessOutcome where
  | success
  | failure
  | raised
deriving DecidableEq, Repr

/-- Keys of the insertion-ordered dict, in insertion order. -/
def ledgerKeys (l : List (Nat × Nat)) : List Nat := l.map Prod.fst

/-- Assignment `self._processed_ids[k] = v` on an insertion-ordered dict: an existing key
keeps its position and gets the new value, a new key is appended at the end. -/
def dictInsert (l : List (Nat × Nat)) (k v : Nat) : List (Nat × Nat) :=
  if k ∈ ledgerKeys l then l.map (fun p => if p.1 = k then (k, v) else p)
  else l ++ [(k, v)]

/-- Python `max(n.timestamp for n in notifications)` (over a non-empty list). -/
def maxTimestamp (l : List AtNotification) : Nat :=
  (l.map (fun n => n.timestamp)).foldl Nat.max 0

/-- Python `AtMonitor._initialize`, given the result of the first
`fetch_at_notifications` call (`none` models a raised fetch) and the current
wall-clock time `wallNow` (`int(time.time())`). -/
def monitorInitialize (s : MonitorState) (fetched : Option (List AtNotification))
    (wallNow : Nat) : MonitorState :=
  match fetched with
  | none => { s with last_at_time := wallNow }
  | some ns =>
    if ns.isEmpty then { s with last_at_time := wallNow }
    else
      { s with
        last_at_time := maxTimestamp ns,
        processed_ids :=
          ns.foldl (fun acc n => dictInsert acc n.at_id n.timestamp)
            s.processed_ids }

/-- The filter of `_poll_once`: keep events with `timestamp >= last_at_time`
whose `at_id` is not in the dedup ledger. -/
def newNotifications (s : MonitorState) (batch : List AtNotification) :
    List AtNotification :=
  batch.filter (fun n =>
    decide (s.last_at_time ≤ n.timestamp) &&
    !(decide (n.at_id ∈ ledgerKeys s.processed_ids)))

/-- The per-event loop of `_poll_once`: each visited event is marked processed
(dedup ledger insertion) whatever `process` did. -/
def visitAll (s : MonitorState) (visited : List AtNotification) : MonitorState :=
  visited.foldl
    (fun st n => { st with processed_ids := dictInsert st.processed_ids n.at_id n.timestamp })
    s

/-- The ledger-trim step at the end of `_poll_once`: when the dict exceeds
`max_processed_ids`, the oldest `len - max//2` entries are removed. -/
def trimLedger (s : MonitorState) : MonitorState :=
  if s.processed_ids.length > s.max_processed_ids then
    { s with processed_ids :=
        s.processed_ids.drop (s.processed_ids.length - s.max_processed_ids / 2) }
  else s

/-- Python `AtMonitor._poll_once`, given the fetched batch (newest first) and the
processor oracle.  Returns the new monitor state together with the list of
(event, outcome) pairs handed to `processor.process`, oldest first. -/
def pollOnce (s : MonitorState) (batch : List AtNotification)
    (outcome : AtNotification → ProcessOutcome) :
    MonitorState × List (AtNotification × ProcessOutcome) :=
  if batch.isEmpty then (s, [])
  else
    let news := newNotifications s batch
    if news.isEmpty then (s, [])
    else
      let visited := news.reverse
      let s1 := visitAll s visited
      let s2 := { s1 with last_at_time := Nat.max s1.last_at_time (maxTimestamp news) }
      (trimLedger s2, visited.map (fun n => (n, outcome n)))

/-- The events a poll handed to the processor. -/
def handedEvents (r : MonitorState × List (AtNotification × ProcessOutcome)) :
    List AtNotification :=
  r.2.map Prod.fst

/-- The spec's initialization batch, with timestamps [10, 20, 15]. -/
def initBatch : List AtNotification :=
  [⟨1, 0, 0, 0, "", "BV1", 0, "", 10⟩,
   ⟨2, 0, 0, 0, "", "BV1", 0, "", 20⟩,
   ⟨3, 0, 0, 0, "", "BV1", 0, "", 15⟩]

/-- The spec's ordering batch: newest-first [t=30, t=20]. -/
def notif30 : AtNotification := ⟨1, 0, 0, 0, "", "BV1", 0, "", 30⟩

/-- The older event of the ordering batch. -/
def notif20 : AtNotification := ⟨2, 0, 0, 0, "", "BV1", 0, "", 20⟩

/- ────────────────────────────────────────────────────────────────────────
   src/bot/processor.py — text helpers

   Python strings are sequences of code points, modelled as `List Char` /
   `String`.  The regex `@[\w\-]+\s*` is embedded directly: `\w` is modelled
   by `Char.isAlphanum || c = '_'` (exact on the ASCII inputs used in the
   theorems below) and `\s` by the ASCII whitespace class.  `re.sub` replaces
   every non-overlapping, leftmost-greedy match.
   ──────────────────────────────────────────────────────────────────────── -/

/-- Python regex `\w` on `str`: a character with `str.isalnum()`, or the
underscore.  The Unicode alphanumerics are given by explicit code-point
ranges; every listed range is alphanumeric in its entirety under CPython's
Unicode database, and within each covered block (Latin-1 and extended Latin
through U+02C1, Greek, Cyrillic, Hangul jamo, CJK symbols and ideographic
numerals, kana, Hangul compatibility jamo, small kana, CJK ideographs of the
URO, extension A and the compatibility block, Hangul syllables, and the
halfwidth/fullwidth forms) the model agrees with `str.isalnum()` on every
code point.  Characters of scripts outside these blocks (e.g. Arabic,
Devanagari, supplementary-plane ideographs) are not modelled as word
characters. -/
def isPyWordChar (c : Char) : Bool :=
  let n := c.toNat
  c.isAlphanum || c = '_' ||
  n = 0xAA || n = 0xB2 || n = 0xB3 || n = 0xB5 || n = 0xB9 || n = 0xBA ||
  (0xBC ≤ n && n ≤ 0xBE) || (0xC0 ≤ n && n ≤ 0xD6) || (0xD8 ≤ n && n ≤ 0xF6) ||
  (0xF8 ≤ n && n ≤ 0x2C1) ||
  (0x370 ≤ n && n ≤ 0x374) || (0x376 ≤ n && n ≤ 0x377) ||
  (0x37A ≤ n && n ≤ 0x37D) || n = 0x37F || n = 0x386 ||
  (0x388 ≤ n && n ≤ 0x38A) || n = 0x38C || (0x38E ≤ n && n ≤ 0x3A1) ||
  (0x3A3 ≤ n && n ≤ 0x3F5) || (0x3F7 ≤ n && n ≤ 0x3FF) ||
  (0x400 ≤ n && n ≤ 0x481) || (0x48A ≤ n && n ≤ 0x52F) ||
  (0x1100 ≤ n && n ≤ 0x11FF) ||
  (0x3005 ≤ n && n ≤ 0x3007) || (0x3021 ≤ n && n ≤ 0x3029) ||
  (0x3031 ≤ n && n ≤ 0x3035) || (0x3038 ≤ n && n ≤ 0x303C) ||
  (0x3041 ≤ n && n ≤ 0x3096) || (0x309D ≤ n && n ≤ 0x309F) ||
  (0x30A1 ≤ n && n ≤ 0x30FA) || (0x30FC ≤ n && n ≤ 0x30FF) ||
  (0x3131 ≤ n && n ≤ 0x318E) || (0x31F0 ≤ n && n ≤ 0x31FF) ||
  (0x3400 ≤ n && n ≤ 0x4DBF) || (0x4E00 ≤ n && n ≤ 0x9FFF) ||
  (0xAC00 ≤ n && n ≤ 0xD7A3) || (0xF900 ≤ n && n ≤ 0xFA6D) ||
  (0xFA70 ≤ n && n ≤ 0xFAD9) ||
  (0xFF10 ≤ n && n ≤ 0xFF19) || (0xFF21 ≤ n && n ≤ 0xFF3A) ||
  (0xFF41 ≤ n && n ≤ 0xFF5A) || (0xFF66 ≤ n && n ≤ 0xFF9F) ||
  (0xFFA0 ≤ n && n ≤ 0xFFBE) || (0xFFC2 ≤ n && n ≤ 0xFFC7) ||
  (0xFFCA ≤ n && n ≤ 0xFFCF) || (0xFFD2 ≤ n && n ≤ 0xFFD7) ||
  (0xFFDA ≤ n && n ≤ 0xFFDC)

/-- A character of the regex class `[\w\-]`. -/
def isAtNameChar (c : Char) : Bool := isPyWordChar c || c = '-'

/-- Python regex `\s` and `str.strip()` whitespace: the exact set of code
points for which CPython's `str.isspace()` holds — TAB..CR, the
FS/GS/RS/US separators, SPACE, NEL, NBSP, the Ogham space mark, the
U+2000..U+200A spaces, line and paragraph separators, NNBSP, MMSP and the
ideographic space U+3000. -/
def isPySpace (c : Char) : Bool :=
  let n := c.toNat
  (0x09 ≤ n && n ≤ 0x0D) || (0x1C ≤ n && n ≤ 0x1F) || n = 0x20 || n = 0x85 ||
  n = 0xA0 || n = 0x1680 || (0x2000 ≤ n && n ≤ 0x200A) || n = 0x2028 ||
  n = 0x2029 || n = 0x202F || n = 0x205F || n = 0x3000

/-- Python `_AT_PATTERN.sub("", content)`: remove every match of `@[\w\-]+\s*`,
scanning left to right.  The fuel argument (always instantiated with the
length of the list, which every step strictly decreases) keeps the recursion
structural so that concrete inputs evaluate by `decide`/`rfl`. -/
def stripAtTokensFuel : Nat → List Char → List Char
  | 0, l => l
  | _ + 1, [] => []
  | fuel + 1, c :: rest =>
    if c = '@' ∧ rest.takeWhile isAtNameChar ≠ [] then
      stripAtTokensFuel fuel ((rest.dropWhile isAtNameChar).dropWhile isPySpace)
    else c :: stripAtTokensFuel fuel rest

/-- Python `_AT_PATTERN.sub("", content)` at full fuel. -/
def stripAtTokens (l : List Char) : List Char :=
  stripAtTokensFuel l.length l

/-- Python `str.strip()`. -/
def pyStrip (l : List Char) : List Char :=
  ((l.dropWhile isPySpace).reverse.dropWhile isPySpace).reverse

/-- Python `MessageProcessor._extract_user_question`. -/
def extract_user_question (content : String) : String :=
  String.mk (pyStrip (stripAtTokens content.data))

/-- Constant `_SUMMARY_KEYWORDS` (src/bot/processor.py). -/
def SUMMARY_KEYWORDS : List String :=
  ["总结", "概括", "摘要", "说了什么", "讲了什么", "内容是什么", "说了啥", "讲了啥"]

/-- Python `pat in s` substring test on code-point sequences. -/
def hasSubstring (pat : List Char) : List Char → Bool
  | [] => pat.isEmpty
  | c :: t => pat.isPrefixOf (c :: t) || hasSubstring pat t

/-- Python `MessageProcessor._is_summary_request`. -/
def is_summary_request (text : String) : Bool :=
  if text = "" then true
  else SUMMARY_KEYWORDS.any (fun kw => hasSubstring kw.data text.data)

/-- Python slice `l[:j]` for a possibly negative bound `j`. -/
def pyTake (l : List Char) (j : Int) : List Char :=
  if 0 ≤ j then l.take j.toNat else l.take (l.length - j.natAbs)

/-- The code-point computation of `MessageProcessor._format_reply`:
`reply = f"{prefix}\n{ai_text}"`, truncated to `max_reply_chars - 3` code
points plus `"..."` when longer than `max_reply_chars`. -/
def formatReplyChars (p : List Char) (maxChars : Nat) (ai_text : List Char) :
    List Char :=
  let reply := p ++ '\n' :: ai_text
  if maxChars < reply.length then
    pyTake reply ((maxChars : Int) - 3) ++ ['.', '.', '.']
  else reply

/-- The `MessageProcessor` configuration (`reply_prefix_text` models the
constructor argument `reply_prefix`, default "【AI总结】"). -/
structure ProcessorConfig where
  max_subtitle_chars : Nat
  reply_prefix_text : String
  max_reply_chars : Nat
deriving DecidableEq, Repr

/-- The repository's default processor configuration. -/
def defaultConfig : ProcessorConfig :=
  { max_subtitle_chars := 8000, reply_prefix_text := "【AI总结】",
    max_reply_chars := 900 }

/-- Python `MessageProcessor._format_reply`. -/
def format_reply (cfg : ProcessorConfig) (ai_text : String) : String :=
  String.mk (formatReplyChars cfg.reply_prefix_text.data cfg.max_reply_chars
    ai_text.data)

/-- Modelled from the spec: derive userText by stripping a LEADING "@name"
token from the raw event text, then trimming.  This follows the spec's words
only, for comparison with the source's `extract_user_question`, which removes
every "@name" token. -/
def stripLeadingAtSpec (content : String) : String :=
  let l := content.data
  let stripped :=
    match l with
    | '@' :: rest =>
      if rest.takeWhile isAtNameChar ≠ [] then
        (rest.dropWhile isAtNameChar).dropWhile isPySpace
      else l
    | _ => l
  String.mk (pyStrip stripped)

/- ────────────────────────────────────────────────────────────────────────
   src/bilibili/client.py — is_user_following_me

   The underlying relation query is modelled by its observable outcome:
   `Except.error ()` when the HTTP call / JSON parsing raised, and
   `Except.ok (code, attr)` when a JSON body was obtained, where `code` is
   `data.get("code")` and `attr` is
   `data.get("data", {}).get("be_relation", {}).get("attribute", 0)`.
   ──────────────────────────────────────────────────────────────────────── -/

/-- Python `BilibiliClient.is_user_following_me`: a raised query is caught and
answered `True`; a JSON answer with non-zero `code` yields `False`; otherwise
the user follows exactly when `attribute` is 2 or 6. -/
def is_user_following_me : Except Unit (Int × Int) → Bool
  | .error _ => true
  | .ok (code, attr) =>
    if code ≠ 0 then false
    else attr = 2 || attr = 6

/-- Modelled from the spec's words in C1: the query "conclusively reports
not-following" when it succeeded with `code = 0` and an attribute outside
{2, 6}.  Used only to state the counterexample to the claim. -/
def conclusivelyNotFollowing : Except Unit (Int × Int) → Bool
  | .error _ => false
  | .ok (code, attr) => code = 0 && !(attr = 2 || attr = 6)

/- ────────────────────────────────────────────────────────────────────────
   src/bilibili/models.py (continued) and src/bot/processor.py — process

   Collaborator calls are oracles fixed in a `CollabEnv`: `Except.error ()`
   models a raised call.  `process` returns its boolean result, the cache
   state after the event, and an observation trace recording, per call site,
   the replies handed to `send_reply`, the AI invocations and the cache
   writes.
   ──────────────────────────────────────────────────────────────────────── -/

/-- Record `VideoInfo` (src/bilibili/models.py). -/
structure VideoInfo where
  bvid : String
  aid : Nat
  title : String
  description : String
  owner_name : String
  duration : Nat
  cid : Nat
deriving DecidableEq, Repr

/-- Record `SubtitleContent` (src/bilibili/models.py). -/
structure SubtitleContent where
  language : String
  body : String
deriving DecidableEq, Repr

/-- Record `VideoContext` (src/bilibili/models.py). -/
structure VideoContext where
  bvid : String
  title : String
  description : String
  owner_name : String
  duration_text : String
  subtitle : Option String
  user_question : String
deriving DecidableEq, Repr

/-- Python `VideoContext.to_prompt`. -/
def VideoContext.to_prompt (v : VideoContext) : String :=
  let parts := ["视频标题：" ++ v.title, "UP主：" ++ v.owner_name,
    "时长：" ++ v.duration_text]
  let parts := if v.description ≠ "" then parts ++ ["视频简介：" ++ v.description]
    else parts
  let parts :=
    match v.subtitle with
    | some sub =>
      if sub ≠ "" then parts ++ ["视频字幕内容：\n" ++ sub]
      else parts ++ ["（该视频没有字幕，请根据标题和简介进行总结）"]
    | none => parts ++ ["（该视频没有字幕，请根据标题和简介进行总结）"]
  let parts := if v.user_question ≠ "" then
      parts ++ ["\n用户的问题/要求：" ++ v.user_question]
    else parts
  String.intercalate "\n" parts

/-- Record `ReplyResult` (src/bilibili/models.py). -/
structure ReplyResult where
  success : Bool
  rpid : Nat
  message : String
deriving DecidableEq, Repr

/-- Oracle answers of the collaborators used by one `process` call.
`is_user_following_me` never raises, so it is a plain `Bool`. -/
structure CollabEnv where
  isFollowing : Bool
  videoInfo : Except Unit VideoInfo
  subtitle : Except Unit (Option SubtitleContent)
  summarizeResult : Except Unit String
  answerResult : Except Unit String
  sendResult : Except Unit ReplyResult
deriving Repr

/-- Which call site of `_send_reply` produced a reply: the fixed onboarding
message for non-followers, or a formatted AI reply. -/
inductive SendKind where
  | onboarding
  | formatted
deriving DecidableEq, Repr

/-- One `send_reply` invocation as recorded by the trace. -/
structure SentReply where
  kind : SendKind
  oid : Nat
  root : Nat
  parent : Nat
  message : String
deriving DecidableEq, Repr

/-- Observation trace of one `process` call. -/
structure ProcTrace where
  sends : List SentReply
  summarize_calls : List String
  answer_calls : List (String × String)
  cache_puts : List (String × String)
deriving DecidableEq, Repr

/-- The empty trace. -/
def emptyTrace : ProcTrace :=
  { sends := [], summarize_calls := [], answer_calls := [], cache_puts := [] }

/-- Constant `_NOT_FOLLOWING_MSG` (src/bot/processor.py). -/
def NOT_FOLLOWING_MSG : String :=
  "👋 你好呀～\n\n看起来你还没有关注我哦！\n✨ 关注我之后就可以免费使用 AI 视频总结功能啦～\n\n点击我的头像 → 关注 → 再来 @我 试试吧！"

/-- Python `MessageProcessor._send_reply`: compute root/parent from the notification
threading rule, record the `send_reply` call, and return its success flag
(`false` when the call raised, as `process` catches the exception). -/
def sendReplyStep (env : CollabEnv) (n : AtNotification) (kind : SendKind)
    (text : String) (tr : ProcTrace) : Bool × ProcTrace :=
  let root := if n.root_id = 0 then n.source_id else n.root_id
  let parent := n.source_id
  let tr2 := { tr with sends := tr.sends ++
    [{ kind := kind, oid := n.oid, root := root, parent := parent, message := text }] }
  match env.sendResult with
  | .error _ => (false, tr2)
  | .ok r => (r.success, tr2)

/-- Steps 4–7 of `MessageProcessor.process` (subtitle fetch, context assembly,
AI call, cache write for summaries, reply).  Entered with the cache state
`c1` left by the optional cache lookup of step 3. -/
def processLong (cfg : ProcessorConfig) (env : CollabEnv) (c1 : SummaryCache)
    (now : Nat) (n : AtNotification) (video : VideoInfo) (user_text : String)
    (is_summary : Bool) : Bool × SummaryCache × ProcTrace :=
  match env.subtitle with
  | .error _ => (false, c1, emptyTrace)
  | .ok subOpt =>
    let subtitle_text : Option String :=
      subOpt.map (fun sc => String.mk (sc.body.data.take cfg.max_subtitle_chars))
    let context : VideoContext :=
      { bvid := n.bvid, title := video.title,
        description := String.mk (video.description.data.take 500),
        owner_name := video.owner_name,
        duration_text := toString (video.duration / 60) ++ "分" ++
          toString (video.duration % 60) ++ "秒",
        subtitle := subtitle_text,
        user_question := if is_summary then "" else user_text }
    if is_summary then
      match env.summarizeResult with
      | .error _ =>
        (false, c1, { emptyTrace with summarize_calls := [context.to_prompt] })
      | .ok ai_result =>
        let putRes := c1.put n.bvid ai_result now
        if putRes.2 then
          let tr := { emptyTrace with
            summarize_calls := [context.to_prompt],
            cache_puts := [(n.bvid, ai_result)] }
          let send := sendReplyStep env n SendKind.formatted
            (format_reply cfg ai_result) tr
          (send.1, putRes.1, send.2)
        else
          (false, putRes.1, { emptyTrace with summarize_calls := [context.to_prompt] })
    else
      match env.answerResult with
      | .error _ =>
        (false, c1, { emptyTrace with answer_calls := [(context.to_prompt, user_text)] })
      | .ok ai_result =>
        let tr := { emptyTrace with answer_calls := [(context.to_prompt, user_text)] }
        let send := sendReplyStep env n SendKind.formatted
          (format_reply cfg ai_result) tr
        (send.1, c1, send.2)

/-- Python `MessageProcessor.process`: follow check (fail-open handled inside
`is_user_following_me`), video fetch, intent classification, optional cached
summary short-circuit (note the Python truthiness test `if cached:`, false
for the empty string), then `processLong`.  A raised collaborator call makes
the result `false` (the top-level `except` of `process`). -/
def process (cfg : ProcessorConfig) (env : CollabEnv) (cache : SummaryCache)
    (now : Nat) (n : AtNotification) : Bool × SummaryCache × ProcTrace :=
  if env.isFollowing then
    match env.videoInfo with
    | .error _ => (false, cache, emptyTrace)
    | .ok video =>
      let user_text := extract_user_question n.content
      let is_summary := is_summary_request user_text
      if is_summary then
        match cache.get n.bvid now with
        | (some cached, c1) =>
          if cached = "" then processLong cfg env c1 now n video user_text true
          else
            let send := sendReplyStep env n SendKind.formatted
              (format_reply cfg cached) emptyTrace
            (send.1, c1, send.2)
        | (none, c1) => processLong cfg env c1 now n video user_text true
      else
        processLong cfg env cache now n video user_text false
  else
    let send := sendReplyStep env n SendKind.onboarding NOT_FOLLOWING_MSG emptyTrace
    (send.1, cache, send.2)

/-- Fixture: a video record. -/
def exVideo : VideoInfo := ⟨"BV1", 7, "t", "d", "o", 65, 9⟩

/-- Fixture: an environment whose collaborator calls all succeed. -/
def exEnv : CollabEnv :=
  { isFollowing := true, videoInfo := .ok exVideo, subtitle := .ok none,
    summarizeResult := .ok "SUM", answerResult := .ok "ANS",
    sendResult := .ok ⟨true, 3, ""⟩ }

/-- Fixture: the same environment for a non-following sender. -/
def exEnvNoFollow : CollabEnv := { exEnv with isFollowing := false }

/-- Fixture: a mention with empty user text (summary intent). -/
def exNotif : AtNotification := ⟨1, 5, 0, 2, "u", "BV1", 7, "", 30⟩

/-- Fixture: a mention carrying a concrete question (question intent). -/
def exNotifQuestion : AtNotification := { exNotif with content := "why is this" }

/-- Fixture: a mention whose text is only a CJK @name (summary intent). -/
def exNotifCJK : AtNotification := { exNotif with content := "@哈哈" }

/-- Fixture: a cache holding the empty string for item BV1. -/
def exCacheEmptyStr : SummaryCache := ⟨100, 2, [⟨"BV1", "", 50⟩], 0, 0⟩

/-- Fixture: a cache holding a non-empty artifact for item BV1. -/
def exCacheFull : SummaryCache := ⟨100, 2, [⟨"BV1", "S0", 50⟩], 0, 0⟩

/-- Fixture: the spec's truncation test configuration (cap 20). -/
def cfg20 : ProcessorConfig :=
  { max_subtitle_chars := 8000, reply_prefix_text := "【AI总结】",
    max_reply_chars := 20 }

/-- Fixture: a 30-character generated body. -/
def longBody : String := "aaaaaaaaaaaaaaaaaaaaaaaaaaaaaa"


/- Helper lemmas about the cache. -/

theorem SummaryCache.evict_length {max_size : Nat} :
    ∀ {l l' : List CacheEntry}, SummaryCache.evict max_size l = some l' →
      l'.length < max_size := by
  intro l
  induction l with
  | nil =>
    intro l' h
    unfold SummaryCache.evict at h
    split at h
    · cases h; simpa
    · cases h
  | cons e t ih =>
    intro l' h
    unfold SummaryCache.evict at h
    split at h
    · cases h; simpa using by omega
    · exact ih h

theorem List.length_filter_lt_of_mem_neg {α : Type} (p : α → Bool) :
    ∀ (l : List α) (x : α), x ∈ l → p x = false →
      (l.filter p).length < l.length := by
  intro l
  induction l with
  | nil => intro x hx; cases hx
  | cons a t ih =>
    intro x hx hpx
    rcases List.mem_cons.mp hx with h | h
    · subst h
      have := List.length_filter_le p t
      simp only [List.filter_cons, hpx, Bool.false_eq_true, if_false, List.length_cons]
      omega
    · have ht := ih x h hpx
      simp only [List.filter_cons]
      split <;> simp <;> omega

theorem SummaryCache.get_size_le (s : SummaryCache) (bvid : String) (now : Nat)
    (h : s.entries.length ≤ s.max_size) :
    ((s.get bvid now).2).entries.length ≤ s.max_size := by
  unfold SummaryCache.get
  split
  · simpa
  next e hfind =>
    have hmem := List.mem_of_find?_eq_some hfind
    have hkey := List.find?_some hfind
    split
    · show (s.entries.filter (fun e2 => !(e2.key == bvid))).length ≤ s.max_size
      have := List.length_filter_le (fun e2 => !(e2.key == bvid)) s.entries
      omega
    · show ((s.entries.filter (fun e2 => !(e2.key == bvid))) ++ [e]).length ≤ s.max_size
      have hf : ((fun e2 => !(e2.key == bvid)) e) = false := by
        simp [hkey]
      have hlt := List.length_filter_lt_of_mem_neg (fun e2 => !(e2.key == bvid))
        s.entries e hmem hf
      simp only [List.length_append, List.length_cons, List.length_nil]
      omega

theorem SummaryCache.put_size_le (s : SummaryCache) (bvid content : String) (now : Nat) :
    ((s.put bvid content now).1).entries.length ≤ s.max_size := by
  unfold SummaryCache.put
  cases hev : SummaryCache.evict s.max_size s.entries with
  | none => simp
  | some l =>
    have hlen := SummaryCache.evict_length hev
    simp only [List.length_append, List.length_cons, List.length_nil]
    have := List.length_filter_le (fun e2 => !(e2.key == bvid)) l
    omega

theorem SummaryCache.applyOp_size_le (s : SummaryCache) (op : CacheOp)
    (h : s.entries.length ≤ s.max_size) :
    (s.applyOp op).entries.length ≤ s.max_size := by
  cases op with
  | get bvid now => exact s.get_size_le bvid now h
  | put bvid content now => exact s.put_size_le bvid content now

theorem SummaryCache.applyOp_max_size (s : SummaryCache) (op : CacheOp) :
    (s.applyOp op).max_size = s.max_size := by
  cases op with
  | get bvid now =>
    simp only [SummaryCache.applyOp]
    unfold SummaryCache.get
    cases hfind : s.entries.find? (fun e => e.key == bvid) <;> simp
    split <;> simp
  | put bvid content now =>
    simp only [SummaryCache.applyOp]
    unfold SummaryCache.put
    cases hev : SummaryCache.evict s.max_size s.entries <;> simp

theorem SummaryCache.runOps_size_le (ops : List CacheOp) :
    ∀ (s : SummaryCache), s.entries.length ≤ s.max_size →
      (s.runOps ops).entries.length ≤ (s.runOps ops).max_size := by
  induction ops with
  | nil => intro s h; simpa [SummaryCache.runOps]
  | cons op rest ih =>
    intro s h
    have h1 : (s.applyOp op).entries.length ≤ (s.applyOp op).max_size := by
      rw [SummaryCache.applyOp_max_size]
      exact s.applyOp_size_le op h
    simpa [SummaryCache.runOps, List.foldl_cons] using ih (s.applyOp op) h1

theorem SummaryCache.runOps_max_size (ops : List CacheOp) :
    ∀ (s : SummaryCache), (s.runOps ops).max_size = s.max_size := by
  induction ops with
  | nil => intro s; rfl
  | cons op rest ih =>
    intro s
    calc ((s.applyOp op).runOps rest).max_size
        = (s.applyOp op).max_size := ih (s.applyOp op)
      _ = s.max_size := s.applyOp_max_size op

/-- C3: after every sequence of put/get operations the cache holds at most
`max_size` entries; a completed `put` leaves at most `max_size` entries with
the written key at the most-recently-used (last) position carrying expiry
`now + ttl`; and the 2-entry scenario put(A), put(B), get(A), put(C) leaves
exactly A and C present (B evicted). -/
theorem claim_C3_lru_bound_and_eviction :
    (∀ (ttl max_size : Nat) (ops : List CacheOp),
      ((SummaryCache.init ttl max_size).runOps ops).entries.length ≤ max_size)
    ∧ (∀ (s : SummaryCache) (bvid content : String) (now : Nat),
        (s.put bvid content now).2 = true →
          ((s.put bvid content now).1).entries.length ≤ s.max_size ∧
          ((s.put bvid content now).1).entries.getLast? =
            some { key := bvid, content := content, expireAt := now + s.ttl })
    ∧ ((SummaryCache.init 1000 2).runOps scenarioOps).entries.map
        (fun e => e.key) = ["A", "C"] := by
  refine ⟨?_, ?_, by decide⟩
  · intro ttl max_size ops
    have h0 : (SummaryCache.init ttl max_size).entries.length ≤
        (SummaryCache.init ttl max_size).max_size := by
      simp [SummaryCache.init]
    have h := SummaryCache.runOps_size_le ops (SummaryCache.init ttl max_size) h0
    rwa [SummaryCache.runOps_max_size] at h
  · intro s bvid content now hok
    unfold SummaryCache.put at hok ⊢
    cases hev : SummaryCache.evict s.max_size s.entries with
    | none => rw [hev] at hok; cases hok
    | some l =>
      refine ⟨?_, ?_⟩
      · have hlen := SummaryCache.evict_length hev
        have := List.length_filter_le (fun e2 => !(e2.key == bvid)) l
        simp only [List.length_append, List.length_cons, List.length_nil]
        omega
      · simp

/-- Witness for C3 at a concrete completed put. -/
theorem claim_C3_witness :
    ((SummaryCache.init 1000 2).put "A" "sa" 0).2 = true ∧
    (((SummaryCache.init 1000 2).put "A" "sa" 0).1.entries.length ≤
        (SummaryCache.init 1000 2).max_size ∧
      ((SummaryCache.init 1000 2).put "A" "sa" 0).1.entries.getLast? =
        some { key := "A", content := "sa", expireAt := 1000 }) :=
  ⟨by decide,
    claim_C3_lru_bound_and_eviction.2.1 (SummaryCache.init 1000 2) "A" "sa" 0
      (by decide)⟩

/-- C4: `get` never returns an entry once `now` passes its expiry instant: the
expired entry is removed by that very `get`, the miss counter is incremented,
and absence is reported; on a non-expired hit the key is promoted to the
most-recently-used position and the hit counter is incremented. -/
theorem claim_C4_get_expiry_and_promotion :
    ∀ (s : SummaryCache) (bvid : String) (now : Nat),
      (∀ v, (s.get bvid now).1 = some v →
        ∃ e, e ∈ s.entries ∧ (e.key == bvid) = true ∧ e.content = v ∧
          ¬ e.expireAt < now)
      ∧ (∀ e, s.entries.find? (fun e2 => e2.key == bvid) = some e →
          (e.expireAt < now →
            s.get bvid now =
              (none, { s with
                entries := s.entries.filter (fun e2 => !(e2.key == bvid)),
                misses := s.misses + 1 }))
          ∧ (¬ e.expireAt < now →
            s.get bvid now =
              (some e.content, { s with
                entries := s.entries.filter (fun e2 => !(e2.key == bvid)) ++ [e],
                hits := s.hits + 1 }))) := by
  intro s bvid now
  constructor
  · intro v hv
    unfold SummaryCache.get at hv
    split at hv
    · cases hv
    next e hfind =>
      split at hv
      · cases hv
      next hexp =>
        have hkey : (e.key == bvid) = true := by
          simpa using List.find?_some hfind
        refine ⟨e, List.mem_of_find?_eq_some hfind, hkey, ?_, hexp⟩
        simpa using hv
  · intro e hfind
    constructor <;> intro hexp <;> unfold SummaryCache.get <;> rw [hfind] <;>
      simp [hexp]

/-- Witness for C4: a concrete expired lookup and a concrete non-expired hit. -/
theorem claim_C4_witness :
    (SummaryCache.get ⟨10, 2, [⟨"A", "x", 5⟩], 0, 0⟩ "A" 6 =
      (none, ⟨10, 2, [], 0, 1⟩))
    ∧ (SummaryCache.get ⟨10, 2, [⟨"A", "x", 5⟩], 0, 0⟩ "A" 5 =
      (some "x", ⟨10, 2, [⟨"A", "x", 5⟩], 1, 0⟩)) :=
  ⟨((claim_C4_get_expiry_and_promotion ⟨10, 2, [⟨"A", "x", 5⟩], 0, 0⟩ "A" 6).2
      ⟨"A", "x", 5⟩ (by decide)).1 (by decide),
   ((claim_C4_get_expiry_and_promotion ⟨10, 2, [⟨"A", "x", 5⟩], 0, 0⟩ "A" 5).2
      ⟨"A", "x", 5⟩ (by decide)).2 (by decide)⟩

/- Helper lemmas about the dedup ledger. -/

theorem ledgerKeys_dictInsert (l : List (Nat × Nat)) (k v : Nat) :
    ledgerKeys (dictInsert l k v) =
      if k ∈ ledgerKeys l then ledgerKeys l else ledgerKeys l ++ [k] := by
  unfold dictInsert
  split
  · simp only [if_pos ‹k ∈ ledgerKeys l›, ledgerKeys, List.map_map]
    refine List.map_congr_left ?_
    intro p _
    by_cases hp : p.1 = k
    · simp [hp, Function.comp]
    · simp [hp, Function.comp]
  · simp [ledgerKeys, ‹¬ k ∈ ledgerKeys l›]

theorem mem_ledgerKeys_dictInsert_self (l : List (Nat × Nat)) (k v : Nat) :
    k ∈ ledgerKeys (dictInsert l k v) := by
  rw [ledgerKeys_dictInsert]
  split
  · assumption
  · simp

theorem mem_ledgerKeys_dictInsert_of_mem (l : List (Nat × Nat)) (k v j : Nat)
    (h : j ∈ ledgerKeys l) : j ∈ ledgerKeys (dictInsert l k v) := by
  rw [ledgerKeys_dictInsert]
  split
  · assumption
  · simp [h]

theorem mem_ledgerKeys_visitAll_of_mem (visited : List AtNotification) :
    ∀ (s : MonitorState) (j : Nat), j ∈ ledgerKeys s.processed_ids →
      j ∈ ledgerKeys (visitAll s visited).processed_ids := by
  induction visited with
  | nil => intro s j h; simpa [visitAll]
  | cons n rest ih =>
    intro s j h
    simp only [visitAll, List.foldl_cons]
    exact ih _ j (mem_ledgerKeys_dictInsert_of_mem _ _ _ _ h)

theorem mem_ledgerKeys_visitAll (visited : List AtNotification) :
    ∀ (s : MonitorState) (n : AtNotification), n ∈ visited →
      n.at_id ∈ ledgerKeys (visitAll s visited).processed_ids := by
  induction visited with
  | nil => intro s n h; cases h
  | cons m rest ih =>
    intro s n h
    rcases List.mem_cons.mp h with h | h
    · subst h
      simp only [visitAll, List.foldl_cons]
      exact mem_ledgerKeys_visitAll_of_mem rest _ n.at_id
        (mem_ledgerKeys_dictInsert_self _ _ _)
    · simp only [visitAll, List.foldl_cons]
      exact ih _ n h

theorem mem_newNotifications {s : MonitorState} {batch : List AtNotification}
    {n : AtNotification} (h : n ∈ newNotifications s batch) :
    n ∈ batch ∧ s.last_at_time ≤ n.timestamp ∧
      n.at_id ∉ ledgerKeys s.processed_ids := by
  have := List.mem_filter.mp h
  rcases this with ⟨hmem, hpred⟩
  simp only [Bool.and_eq_true, decide_eq_true_eq, Bool.not_eq_true',
    decide_eq_false_iff_not] at hpred
  exact ⟨hmem, hpred.1, hpred.2⟩

theorem handedEvents_pollOnce (s : MonitorState) (batch : List AtNotification)
    (outcome : AtNotification → ProcessOutcome) :
    handedEvents (pollOnce s batch outcome) = (newNotifications s batch).reverse := by
  unfold pollOnce handedEvents
  by_cases h1 : batch.isEmpty
  · have : newNotifications s batch = [] := by
      rcases batch with _ | ⟨b, t⟩
      · rfl
      · cases h1
    simp [h1, this]
  · by_cases h2 : (newNotifications s batch).isEmpty
    · have : newNotifications s batch = [] := by
        rcases hh : newNotifications s batch with _ | ⟨b, t⟩
        · rfl
        · rw [hh] at h2; cases h2
      simp [h1, h2, this]
    · simp only [h1, h2, Bool.false_eq_true, if_false, List.map_map,
        List.map_reverse, List.reverse_inj]
      have : List.map (Prod.fst ∘ fun n => (n, outcome n)) (newNotifications s batch)
          = List.map id (newNotifications s batch) :=
        List.map_congr_left (fun n _ => rfl)
      rw [this, List.map_id]

theorem mem_ledgerKeys_foldl_insert_of_mem (ns : List AtNotification) :
    ∀ (acc : List (Nat × Nat)) (j : Nat), j ∈ ledgerKeys acc →
      j ∈ ledgerKeys
        (ns.foldl (fun acc n => dictInsert acc n.at_id n.timestamp) acc) := by
  induction ns with
  | nil => intro acc j h; simpa
  | cons n rest ih =>
    intro acc j h
    simp only [List.foldl_cons]
    exact ih _ j (mem_ledgerKeys_dictInsert_of_mem _ _ _ _ h)

theorem mem_ledgerKeys_foldl_insert (ns : List AtNotification) :
    ∀ (acc : List (Nat × Nat)) (n : AtNotification), n ∈ ns →
      n.at_id ∈ ledgerKeys
        (ns.foldl (fun acc n => dictInsert acc n.at_id n.timestamp) acc) := by
  induction ns with
  | nil => intro acc n h; cases h
  | cons m rest ih =>
    intro acc n h
    rcases List.mem_cons.mp h with h | h
    · subst h
      simp only [List.foldl_cons]
      exact mem_ledgerKeys_foldl_insert_of_mem rest _ n.at_id
        (mem_ledgerKeys_dictInsert_self _ _ _)
    · simp only [List.foldl_cons]
      exact ih _ n h

/-- C2: the poll filter only admits events with timestamp ≥ watermark whose
at_id is absent from the dedup ledger — so an id already in the ledger is
never handed to the processor again; after the visiting loop every handed id
is in the ledger regardless of what `process` returned or raised; and the
processor outcomes influence neither the resulting monitor state nor which
events are handed. -/
theorem claim_C2_dedup_ledger :
    ∀ (s : MonitorState) (batch : List AtNotification)
      (outcome : AtNotification → ProcessOutcome),
      (∀ n, n ∈ handedEvents (pollOnce s batch outcome) →
        s.last_at_time ≤ n.timestamp ∧ n.at_id ∉ ledgerKeys s.processed_ids)
      ∧ (∀ n, n ∈ handedEvents (pollOnce s batch outcome) →
          n.at_id ∈ ledgerKeys
            (visitAll s ((newNotifications s batch).reverse)).processed_ids)
      ∧ (∀ outcome2, (pollOnce s batch outcome).1 = (pollOnce s batch outcome2).1 ∧
          handedEvents (pollOnce s batch outcome) =
            handedEvents (pollOnce s batch outcome2)) := by
  intro s batch outcome
  refine ⟨?_, ?_, ?_⟩
  · intro n hn
    rw [handedEvents_pollOnce] at hn
    have h := mem_newNotifications (List.mem_reverse.mp hn)
    exact ⟨h.2.1, h.2.2⟩
  · intro n hn
    rw [handedEvents_pollOnce] at hn
    exact mem_ledgerKeys_visitAll _ s n hn
  · intro outcome2
    constructor
    · unfold pollOnce
      by_cases h1 : batch.isEmpty <;>
        by_cases h2 : (newNotifications s batch).isEmpty <;>
          simp [h1, h2]
    · rw [handedEvents_pollOnce, handedEvents_pollOnce]

/-- Witness for C2 at a concrete state and batch. -/
theorem claim_C2_witness :
    ((⟨1, 0, 0, 0, "", "BV1", 0, "", 30⟩ : AtNotification) ∈
      handedEvents (pollOnce ⟨10, [(5, 9)], 10000⟩
        [⟨1, 0, 0, 0, "", "BV1", 0, "", 30⟩] (fun _ => ProcessOutcome.success)))
    ∧ (10 ≤ 30 ∧ (1 : Nat) ∉ ledgerKeys [(5, 9)]) :=
  ⟨by decide,
    (claim_C2_dedup_ledger ⟨10, [(5, 9)], 10000⟩
        [⟨1, 0, 0, 0, "", "BV1", 0, "", 30⟩] (fun _ => ProcessOutcome.success)).1
      ⟨1, 0, 0, 0, "", "BV1", 0, "", 30⟩ (by decide)⟩

theorem initialize_marks_all (s : MonitorState) (l : List AtNotification)
    (t : Nat) (hne : l ≠ []) :
    ∀ n ∈ l, n.at_id ∈ ledgerKeys (monitorInitialize s (some l) t).processed_ids := by
  have hempty : l.isEmpty = false := by
    rcases l with _ | ⟨a, r⟩
    · cases hne rfl
    · rfl
  intro n hn
  simp only [monitorInitialize, hempty, Bool.false_eq_true, if_false]
  exact mem_ledgerKeys_foldl_insert l s.processed_ids n hn

/-- C5: initialization on a non-empty first batch sets the watermark to the
maximum timestamp of the batch and marks every event of the batch as already
processed; on an empty batch or a raised fetch it sets the watermark to the
current wall-clock time; it never hands an event to the processor, and a poll
immediately following initialization that returns the same batch hands
nothing.  Concretely, a first batch with timestamps [10, 20, 15] yields
watermark 20 and the following poll of that batch hands nothing. -/
theorem claim_C5_initialization :
    (∀ (s : MonitorState) (l : List AtNotification) (t : Nat), l ≠ [] →
      (monitorInitialize s (some l) t).last_at_time = maxTimestamp l ∧
      ∀ n ∈ l, n.at_id ∈ ledgerKeys (monitorInitialize s (some l) t).processed_ids)
    ∧ (∀ (s : MonitorState) (t : Nat),
        monitorInitialize s none t = { s with last_at_time := t } ∧
        monitorInitialize s (some []) t = { s with last_at_time := t })
    ∧ (∀ (s : MonitorState) (l : List AtNotification) (t : Nat)
        (outcome : AtNotification → ProcessOutcome),
        handedEvents (pollOnce (monitorInitialize s (some l) t) l outcome) = [])
    ∧ ((monitorInitialize ⟨0, [], 10000⟩ (some initBatch) 99).last_at_time = 20 ∧
        handedEvents (pollOnce (monitorInitialize ⟨0, [], 10000⟩ (some initBatch) 99)
          initBatch (fun _ => ProcessOutcome.success)) = []) := by
  refine ⟨?_, ?_, ?_, by decide, by decide⟩
  · intro s l t hne
    have hempty : l.isEmpty = false := by
      rcases l with _ | ⟨a, r⟩
      · cases hne rfl
      · rfl
    refine ⟨?_, initialize_marks_all s l t hne⟩
    simp only [monitorInitialize, hempty, Bool.false_eq_true, if_false]
  · intro s t
    exact ⟨rfl, rfl⟩
  · intro s l t outcome
    rw [handedEvents_pollOnce]
    rcases hl : l with _ | ⟨a, r⟩
    · rfl
    · rw [← hl]
      have hne : l ≠ [] := by rw [hl]; intro hc; cases hc
      have hmem := initialize_marks_all s l t hne
      have hnil : newNotifications (monitorInitialize s (some l) t) l = [] := by
        unfold newNotifications
        rw [List.filter_eq_nil_iff]
        intro n hn
        have hid := hmem n hn
        simp [hid]
      rw [hnil]
      rfl

/-- Witness for C5 at the concrete [10, 20, 15] batch. -/
theorem claim_C5_witness :
    initBatch ≠ [] ∧
    ((monitorInitialize ⟨0, [], 10000⟩ (some initBatch) 99).last_at_time =
        maxTimestamp initBatch ∧
      ∀ n ∈ initBatch, n.at_id ∈
        ledgerKeys (monitorInitialize ⟨0, [], 10000⟩ (some initBatch) 99).processed_ids) :=
  ⟨by decide,
    claim_C5_initialization.1 ⟨0, [], 10000⟩ initBatch 99 (by decide)⟩

/-- C8: within every processed batch the new-event subset is visited oldest
first — the handed sequence is the reverse of the (newest-first delivered)
filtered batch; with a fresh state, the newest-first batch [t=30, t=20] is
handed to the processor as t=20 then t=30. -/
theorem claim_C8_oldest_first :
    (∀ (s : MonitorState) (batch : List AtNotification)
      (outcome : AtNotification → ProcessOutcome),
      handedEvents (pollOnce s batch outcome) = (newNotifications s batch).reverse)
    ∧ handedEvents (pollOnce ⟨0, [], 10000⟩ [notif30, notif20]
        (fun _ => ProcessOutcome.success)) = [notif20, notif30] :=
  ⟨handedEvents_pollOnce, by decide⟩

/-- C9: the ledger-trim step at the end of `_poll_once`.  Whenever the dedup
ledger exceeds max_processed_ids at the end of a batch, the oldest entries
(in insertion order) are dropped so that exactly max_processed_ids / 2
entries — the most recently inserted ones — remain, and the surviving
entries keep their relative insertion order (they form a suffix of the
original ledger); a ledger within the cap is left untouched; and every
batch that handed events ends by applying exactly this trim to the
post-visit, post-watermark state. -/
theorem claim_C9_ledger_trim :
    (∀ (s : MonitorState), s.processed_ids.length > s.max_processed_ids →
      (trimLedger s).processed_ids =
        s.processed_ids.drop (s.processed_ids.length - s.max_processed_ids / 2) ∧
      (trimLedger s).processed_ids.length = s.max_processed_ids / 2 ∧
      (trimLedger s).processed_ids <:+ s.processed_ids)
    ∧ (∀ (s : MonitorState), ¬ s.processed_ids.length > s.max_processed_ids →
        trimLedger s = s)
    ∧ (∀ (s : MonitorState) (batch : List AtNotification)
        (outcome : AtNotification → ProcessOutcome),
        batch.isEmpty = false → (newNotifications s batch).isEmpty = false →
        (pollOnce s batch outcome).1 =
          trimLedger { visitAll s ((newNotifications s batch).reverse) with
            last_at_time := Nat.max
              (visitAll s ((newNotifications s batch).reverse)).last_at_time
              (maxTimestamp (newNotifications s batch)) }) := by
  refine ⟨?_, ?_, ?_⟩
  · intro s h
    unfold trimLedger
    rw [if_pos h]
    refine ⟨rfl, ?_, ?_⟩
    · simp only [List.length_drop]
      omega
    · exact List.drop_suffix _ _
  · intro s h
    unfold trimLedger
    rw [if_neg h]
  · intro s batch outcome h1 h2
    unfold pollOnce
    simp only [h1, h2, Bool.false_eq_true, if_false]

/-- Witness for C9: a 5-entry ledger with cap 4 is trimmed to the 2 newest
entries; a 2-entry ledger with cap 4 is untouched; and a concrete poll that
hands an event ends with the trim of its post-visit state. -/
theorem claim_C9_witness :
    ((5 : Nat) > 4) ∧
    ((trimLedger ⟨0, [(1, 1), (2, 2), (3, 3), (4, 4), (5, 5)], 4⟩).processed_ids =
        [(1, 1), (2, 2), (3, 3), (4, 4), (5, 5)].drop (5 - 4 / 2) ∧
      (trimLedger ⟨0, [(1, 1), (2, 2), (3, 3), (4, 4), (5, 5)], 4⟩).processed_ids.length =
        4 / 2 ∧
      (trimLedger ⟨0, [(1, 1), (2, 2), (3, 3), (4, 4), (5, 5)], 4⟩).processed_ids <:+
        [(1, 1), (2, 2), (3, 3), (4, 4), (5, 5)]) ∧
    (¬ (2 : Nat) > 4 ∧
      trimLedger ⟨0, [(1, 1), (2, 2)], 4⟩ = ⟨0, [(1, 1), (2, 2)], 4⟩) ∧
    ((pollOnce ⟨0, [], 10000⟩ [notif30] (fun _ => ProcessOutcome.success)).1 =
      trimLedger { visitAll ⟨0, [], 10000⟩
          ((newNotifications ⟨0, [], 10000⟩ [notif30]).reverse) with
        last_at_time := Nat.max
          (visitAll ⟨0, [], 10000⟩
            ((newNotifications ⟨0, [], 10000⟩ [notif30]).reverse)).last_at_time
          (maxTimestamp (newNotifications ⟨0, [], 10000⟩ [notif30])) }) :=
  ⟨by decide,
    claim_C9_ledger_trim.1 ⟨0, [(1, 1), (2, 2), (3, 3), (4, 4), (5, 5)], 4⟩ (by decide),
    ⟨by decide, claim_C9_ledger_trim.2.1 ⟨0, [(1, 1), (2, 2)], 4⟩ (by decide)⟩,
    claim_C9_ledger_trim.2.2 ⟨0, [], 10000⟩ [notif30] (fun _ => ProcessOutcome.success)
      (by decide) (by decide)⟩

theorem SummaryCache.get_some_hits {s : SummaryCache} {k : String} {now : Nat}
    {v : String} {s2 : SummaryCache} (h : s.get k now = (some v, s2)) :
    s2.hits = s.hits + 1 := by
  unfold SummaryCache.get at h
  split at h
  · simp at h
  next e hfind =>
    split at h
    · simp at h
    · simp only [Prod.mk.injEq] at h
      rw [← h.2]

theorem processLong_sends_formatted (cfg : ProcessorConfig) (env : CollabEnv)
    (c1 : SummaryCache) (now : Nat) (n : AtNotification) (video : VideoInfo)
    (user_text : String) (is_summary : Bool) :
    ∀ r ∈ (processLong cfg env c1 now n video user_text is_summary).2.2.sends,
      r.kind = SendKind.formatted := by
  intro r hr
  rcases env with ⟨fol, vi, sub, sr, ar, send⟩
  cases sub with
  | error e => simp [processLong, emptyTrace] at hr
  | ok subOpt =>
    cases is_summary with
    | false =>
      cases ar with
      | error e => simp [processLong, emptyTrace] at hr
      | ok ai =>
        cases send with
        | error e =>
          simp [processLong, sendReplyStep, emptyTrace] at hr
          rw [hr]
        | ok rr =>
          simp [processLong, sendReplyStep, emptyTrace] at hr
          rw [hr]
    | true =>
      cases sr with
      | error e => simp [processLong, emptyTrace] at hr
      | ok ai =>
        by_cases hput : (c1.put n.bvid ai now).2 = true
        · cases send with
          | error e =>
            simp [processLong, sendReplyStep, emptyTrace, hput] at hr
            rw [hr]
          | ok rr =>
            simp [processLong, sendReplyStep, emptyTrace, hput] at hr
            rw [hr]
        · simp [processLong, sendReplyStep, emptyTrace, hput] at hr

theorem processLong_no_put_of_question (cfg : ProcessorConfig) (env : CollabEnv)
    (c1 : SummaryCache) (now : Nat) (n : AtNotification) (video : VideoInfo)
    (user_text : String) :
    (processLong cfg env c1 now n video user_text false).2.2.cache_puts = [] := by
  rcases env with ⟨fol, vi, sub, sr, ar, send⟩
  cases sub with
  | error e => simp [processLong, emptyTrace]
  | ok subOpt =>
    cases ar with
    | error e => simp [processLong, emptyTrace]
    | ok ai =>
      cases send with
      | error e => simp [processLong, sendReplyStep, emptyTrace]
      | ok rr => simp [processLong, sendReplyStep, emptyTrace]

theorem hasSubstring_eq_true_iff (pat : List Char) :
    ∀ (l : List Char), hasSubstring pat l = true ↔ pat <:+: l := by
  intro l
  induction l with
  | nil =>
    simp only [hasSubstring, List.isEmpty_iff]
    constructor
    · intro h; rw [h]
    · intro h; exact List.eq_nil_of_infix_nil h
  | cons c t ih =>
    simp only [hasSubstring, Bool.or_eq_true]
    constructor
    · intro h
      rcases h with h | h
      · have hpf := List.isPrefixOf_iff_prefix.mp h
        exact hpf.isInfix
      · exact List.infix_cons (ih.mp h)
    · intro h
      rcases (List.infix_cons_iff).mp h with h | h
      · have hpf := List.isPrefixOf_iff_prefix.mpr h
        exact Or.inl hpf
      · exact Or.inr (ih.mpr h)

/-- C1 counterexample: an execution in which the underlying query does not
conclusively report not-following (the platform answered with error code
-400, so the check is inconclusive) yet `is_user_following_me` reports
`false`, not the claimed fail-open `true`. -/
theorem claim_C1_counterexample :
    conclusivelyNotFollowing (Except.ok (-400, 0)) = false ∧
    is_user_following_me (Except.ok (-400, 0)) = false := by
  constructor <;> rfl

/-- C1 (amended): `is_user_following_me` is total (never raises).  When the
underlying query raises, the result is `true` (fail-open); but when the query
returns an API-level error (non-zero code) the result is `false`, and on a
zero code the result is `attribute ∈ {2, 6}`.  The processor sends the fixed
onboarding reply — and performs no video/AI/cache calls — exactly when the
check returned `false`; when it returned `true`, no onboarding reply is ever
sent. -/
theorem claim_C1_relation_check :
    (∀ u : Unit, is_user_following_me (Except.error u) = true)
    ∧ (∀ code attr : Int, code ≠ 0 →
        is_user_following_me (Except.ok (code, attr)) = false)
    ∧ (∀ attr : Int,
        is_user_following_me (Except.ok (0, attr)) =
          (decide (attr = 2) || decide (attr = 6)))
    ∧ (∀ (cfg : ProcessorConfig) (env : CollabEnv) (cache : SummaryCache)
        (now : Nat) (n : AtNotification), env.isFollowing = false →
        (process cfg env cache now n).2.2.sends.map
            (fun r => (r.kind, r.message)) =
          [(SendKind.onboarding, NOT_FOLLOWING_MSG)] ∧
        (process cfg env cache now n).2.2.summarize_calls = [] ∧
        (process cfg env cache now n).2.2.answer_calls = [] ∧
        (process cfg env cache now n).2.2.cache_puts = [] ∧
        (process cfg env cache now n).2.1 = cache)
    ∧ (∀ (cfg : ProcessorConfig) (env : CollabEnv) (cache : SummaryCache)
        (now : Nat) (n : AtNotification), env.isFollowing = true →
        ∀ r ∈ (process cfg env cache now n).2.2.sends,
          r.kind = SendKind.formatted) := by
  refine ⟨fun u => rfl, ?_, fun attr => rfl, ?_, ?_⟩
  · intro code attr h
    simp only [is_user_following_me]
    rw [if_pos h]
  · intro cfg env cache now n h
    rcases env with ⟨fol, vi, sub, sr, ar, send⟩
    simp only at h
    subst h
    cases send with
    | error e =>
      refine ⟨?_, rfl, rfl, rfl, rfl⟩
      simp [process, sendReplyStep, emptyTrace]
    | ok rr =>
      refine ⟨?_, rfl, rfl, rfl, rfl⟩
      simp [process, sendReplyStep, emptyTrace]
  · intro cfg env cache now n h r hr
    unfold process at hr
    rw [h] at hr
    simp only [if_true] at hr
    cases hvi : env.videoInfo with
    | error e => rw [hvi] at hr; simp [emptyTrace] at hr
    | ok video =>
      rw [hvi] at hr
      simp only at hr
      split at hr
      · rcases hget : cache.get n.bvid now with ⟨cres, c1⟩
        rw [hget] at hr
        cases cres with
        | none =>
          exact processLong_sends_formatted cfg env c1 now n video _ true r hr
        | some cached =>
          simp only at hr
          split at hr
          · exact processLong_sends_formatted cfg env c1 now n video _ true r hr
          · rcases env with ⟨fol, vi, sub, sr, ar, send⟩
            cases send with
            | error e =>
              simp [sendReplyStep, emptyTrace] at hr
              rw [hr]
            | ok rr =>
              simp [sendReplyStep, emptyTrace] at hr
              rw [hr]
      · exact processLong_sends_formatted cfg env cache now n video _ false r hr

/-- Witness for C1: a concrete inconclusive query answered false, and a
concrete non-following event answered with exactly the onboarding reply. -/
theorem claim_C1_witness :
    ((-400 : Int) ≠ 0 ∧ is_user_following_me (Except.ok (-400, 55)) = false) ∧
    (exEnvNoFollow.isFollowing = false ∧
      (process defaultConfig exEnvNoFollow exCacheFull 10 exNotif).2.2.sends.map
          (fun r => (r.kind, r.message)) =
        [(SendKind.onboarding, NOT_FOLLOWING_MSG)]) :=
  ⟨⟨by decide, claim_C1_relation_check.2.1 (-400) 55 (by decide)⟩,
   ⟨rfl, (claim_C1_relation_check.2.2.2.1 defaultConfig exEnvNoFollow exCacheFull 10
      exNotif rfl).1⟩⟩

/-- C6 counterexample: the source strips every "@name" token, not only a
leading one — on the input "hi @bob ok" the code produces "hi ok" while the
claimed leading-token-then-trim derivation produces "hi @bob ok". -/
theorem claim_C6_counterexample :
    extract_user_question "hi @bob ok" = "hi ok" ∧
    stripLeadingAtSpec "hi @bob ok" = "hi @bob ok" ∧
    extract_user_question "hi @bob ok" ≠ stripLeadingAtSpec "hi @bob ok" := by
  refine ⟨by decide, by decide, by decide⟩

/-- C6 (amended): userText is derived by removing every "@name" token (with
trailing whitespace) from the raw event text — wherever it occurs, not only a
leading one — and then trimming; the event is classified as summary intent
iff userText is empty or contains one of the fixed summarize keywords as a
substring; and a question-intent event never writes the cache.  The concrete
checks cover ASCII and CJK mentions: `\w` matches CJK ideographs, so
"@哈哈" strips to the empty string (summary intent), while "a @总结" strips
the mention, leaving the question "a" (the keyword inside the @name does not
classify it as a summary). -/
theorem claim_C6_intent_classification :
    (∀ text : String, is_summary_request text = true ↔
      (text = "" ∨ ∃ kw ∈ SUMMARY_KEYWORDS, kw.data <:+: text.data))
    ∧ (∀ (cfg : ProcessorConfig) (env : CollabEnv) (cache : SummaryCache)
        (now : Nat) (n : AtNotification),
        is_summary_request (extract_user_question n.content) = false →
        (process cfg env cache now n).2.2.cache_puts = [])
    ∧ extract_user_question "hi @bob ok" = "hi ok"
    ∧ extract_user_question " @bot " = ""
    ∧ extract_user_question "@哈哈" = ""
    ∧ is_summary_request (extract_user_question "@哈哈") = true
    ∧ extract_user_question "a @总结" = "a"
    ∧ is_summary_request (extract_user_question "a @总结") = false := by
  refine ⟨?_, ?_, by decide, by decide, by decide, by decide, by decide, by decide⟩
  · intro text
    unfold is_summary_request
    by_cases h : text = ""
    · simp [h]
    · rw [if_neg h]
      simp only [List.any_eq_true]
      constructor
      · rintro ⟨kw, hkw, hsub⟩
        exact Or.inr ⟨kw, hkw, (hasSubstring_eq_true_iff kw.data text.data).mp hsub⟩
      · rintro (hc | ⟨kw, hkw, hinf⟩)
        · exact absurd hc h
        · exact ⟨kw, hkw, (hasSubstring_eq_true_iff kw.data text.data).mpr hinf⟩
  · intro cfg env cache now n h
    rcases env with ⟨fol, vi, sub, sr, ar, send⟩
    cases fol with
    | false =>
      cases send with
      | error e => simp [process, sendReplyStep, emptyTrace]
      | ok rr => simp [process, sendReplyStep, emptyTrace]
    | true =>
      cases vi with
      | error e => simp [process, emptyTrace]
      | ok video =>
        simp only [process, h, Bool.false_eq_true, if_false, if_true]
        exact processLong_no_put_of_question cfg ⟨true, .ok video, sub, sr, ar, send⟩
          cache now n video (extract_user_question n.content)

/-- Witness for C6 at a concrete question-intent event. -/
theorem claim_C6_witness :
    is_summary_request (extract_user_question exNotifQuestion.content) = false ∧
    (process defaultConfig exEnv exCacheFull 10 exNotifQuestion).2.2.cache_puts = [] :=
  ⟨by decide,
    claim_C6_intent_classification.2.1 defaultConfig exEnv exCacheFull 10
      exNotifQuestion (by decide)⟩

theorem formatReplyChars_spec (p : List Char) (m : Nat) (a : List Char)
    (h : p.length + 3 ≤ m) :
    (p <+: formatReplyChars p m a)
    ∧ (m < p.length + 1 + a.length →
        (formatReplyChars p m a).length = m ∧
        ['.', '.', '.'] <:+ formatReplyChars p m a)
    ∧ (formatReplyChars p m a).length ≤ m := by
  unfold formatReplyChars pyTake
  have hlen : (p ++ '\n' :: a).length = p.length + 1 + a.length := by
    simp [List.length_append]
    omega
  by_cases hcase : m < (p ++ '\n' :: a).length
  · rw [if_pos hcase]
    have h3 : (0 : Int) ≤ (m : Int) - 3 := by omega
    rw [if_pos h3]
    have htn : ((m : Int) - 3).toNat = m - 3 := by omega
    rw [htn]
    have htl : ((p ++ '\n' :: a).take (m - 3)).length = m - 3 := by
      rw [List.length_take]
      omega
    refine ⟨?_, fun _ => ⟨?_, ?_⟩, ?_⟩
    · have hsplit : (p ++ '\n' :: a).take (m - 3) =
          p ++ ('\n' :: a).take (m - 3 - p.length) := by
        rw [List.take_append_eq_append_take, List.take_of_length_le (by omega)]
      rw [hsplit, List.append_assoc]
      exact ⟨_, rfl⟩
    · rw [List.length_append, htl]
      simp only [List.length_cons, List.length_nil]
      omega
    · exact List.suffix_append _ _
    · rw [List.length_append, htl]
      simp only [List.length_cons, List.length_nil]
      omega
  · rw [if_neg hcase]
    refine ⟨⟨'\n' :: a, rfl⟩, fun hcon => absurd (by omega : m < (p ++ '\n' :: a).length) hcase, ?_⟩
    omega

/-- C7: the emitted reply always begins with the configured reply prefix and
its length never exceeds max_reply_chars; whenever prefix + newline + body
exceeds max_reply_chars, the emitted text has length exactly max_reply_chars
and ends with the three-dot ellipsis marker.  Stated for every configuration
whose cap leaves room for the prefix and the marker — satisfied by the
shipped default (6 + 3 ≤ 900) and by the spec's test cap (6 + 3 ≤ 20). -/
theorem claim_C7_reply_truncation :
    ∀ (cfg : ProcessorConfig) (ai_text : String),
      cfg.reply_prefix_text.length + 3 ≤ cfg.max_reply_chars →
      (cfg.reply_prefix_text.data <+: (format_reply cfg ai_text).data)
      ∧ (cfg.max_reply_chars < cfg.reply_prefix_text.length + 1 + ai_text.length →
          (format_reply cfg ai_text).data.length = cfg.max_reply_chars ∧
          ['.', '.', '.'] <:+ (format_reply cfg ai_text).data)
      ∧ (format_reply cfg ai_text).data.length ≤ cfg.max_reply_chars := by
  intro cfg ai_text h
  exact formatReplyChars_spec cfg.reply_prefix_text.data cfg.max_reply_chars
    ai_text.data h

/-- Witness for C7 at the spec's test: cap 20, prefix+body longer than 20. -/
theorem claim_C7_witness :
    (cfg20.reply_prefix_text.length + 3 ≤ cfg20.max_reply_chars) ∧
    (cfg20.max_reply_chars < cfg20.reply_prefix_text.length + 1 + longBody.length) ∧
    ((format_reply cfg20 longBody).data.length = cfg20.max_reply_chars ∧
      ['.', '.', '.'] <:+ (format_reply cfg20 longBody).data) ∧
    (cfg20.reply_prefix_text.data <+: (format_reply cfg20 longBody).data) :=
  ⟨by decide, by decide,
    (claim_C7_reply_truncation cfg20 longBody (by decide)).2.1 (by decide),
    (claim_C7_reply_truncation cfg20 longBody (by decide)).1⟩

/-- C10: for a summary-intent event, process short-circuits with the cached
artifact only when it is non-empty.  If the stored artifact is the empty
string, the lookup still counts as a cache hit (hit counter incremented,
entry promoted), but process goes on to call the generator's summarize once
and overwrites the cache entry; a non-empty cached artifact short-circuits
with zero generator calls, zero cache writes, and the formatted cached text
as the reply. -/
theorem claim_C10_empty_cached_artifact :
    ∀ (cfg : ProcessorConfig) (env : CollabEnv) (cache : SummaryCache)
      (now : Nat) (n : AtNotification) (video : VideoInfo) (c1 : SummaryCache),
      env.isFollowing = true →
      env.videoInfo = Except.ok video →
      is_summary_request (extract_user_question n.content) = true →
      ((cache.get n.bvid now = (some "", c1) →
        c1.hits = cache.hits + 1 ∧
        ∀ subOpt ai, env.subtitle = Except.ok subOpt →
          env.summarizeResult = Except.ok ai →
          (c1.put n.bvid ai now).2 = true →
          (process cfg env cache now n).2.2.summarize_calls.length = 1 ∧
          (process cfg env cache now n).2.2.cache_puts = [(n.bvid, ai)] ∧
          (process cfg env cache now n).2.1 = (c1.put n.bvid ai now).1)
      ∧ (∀ s0, s0 ≠ "" → cache.get n.bvid now = (some s0, c1) →
          c1.hits = cache.hits + 1 ∧
          (process cfg env cache now n).2.2.summarize_calls = [] ∧
          (process cfg env cache now n).2.2.cache_puts = [] ∧
          (process cfg env cache now n).2.2.sends.map (fun r => r.message) =
            [format_reply cfg s0] ∧
          (process cfg env cache now n).2.1 = c1)) := by
  intro cfg env cache now n video c1 hfol hvi hsum
  constructor
  · intro hget
    refine ⟨SummaryCache.get_some_hits hget, ?_⟩
    intro subOpt ai hsub hai hput
    cases hsend : env.sendResult with
    | error e =>
      refine ⟨?_, ?_, ?_⟩ <;>
        simp [process, processLong, sendReplyStep, emptyTrace, hfol, hvi, hsub,
          hai, hsum, hget, hput, hsend]
    | ok rr =>
      refine ⟨?_, ?_, ?_⟩ <;>
        simp [process, processLong, sendReplyStep, emptyTrace, hfol, hvi, hsub,
          hai, hsum, hget, hput, hsend]
  · intro s0 hs0 hget
    refine ⟨SummaryCache.get_some_hits hget, ?_⟩
    cases hsend : env.sendResult with
    | error e =>
      refine ⟨?_, ?_, ?_, ?_⟩ <;>
        simp [process, sendReplyStep, emptyTrace, hfol, hvi, hsum, hget, hs0, hsend]
    | ok rr =>
      refine ⟨?_, ?_, ?_, ?_⟩ <;>
        simp [process, sendReplyStep, emptyTrace, hfol, hvi, hsum, hget, hs0, hsend]

/-- Witness for C10: the empty-string cached artifact triggers one summarize
call and a cache overwrite (both for an empty-text mention and for a mention
whose text is only a CJK @name), while the non-empty cached artifact
short-circuits with no generator call and no write. -/
theorem claim_C10_witness :
    ((process defaultConfig exEnv exCacheEmptyStr 10 exNotif).2.2.summarize_calls.length = 1 ∧
      (process defaultConfig exEnv exCacheEmptyStr 10 exNotif).2.2.cache_puts =
        [(exNotif.bvid, "SUM")] ∧
      (process defaultConfig exEnv exCacheEmptyStr 10 exNotif).2.1 =
        ((⟨100, 2, [⟨"BV1", "", 50⟩], 1, 0⟩ : SummaryCache).put exNotif.bvid "SUM" 10).1) ∧
    ((process defaultConfig exEnv exCacheEmptyStr 10 exNotifCJK).2.2.summarize_calls.length = 1 ∧
      (process defaultConfig exEnv exCacheEmptyStr 10 exNotifCJK).2.2.cache_puts =
        [(exNotifCJK.bvid, "SUM")] ∧
      (process defaultConfig exEnv exCacheEmptyStr 10 exNotifCJK).2.1 =
        ((⟨100, 2, [⟨"BV1", "", 50⟩], 1, 0⟩ : SummaryCache).put exNotifCJK.bvid "SUM" 10).1) ∧
    ((⟨100, 2, [⟨"BV1", "S0", 50⟩], 1, 0⟩ : SummaryCache).hits = exCacheFull.hits + 1 ∧
      (process defaultConfig exEnv exCacheFull 10 exNotif).2.2.summarize_calls = [] ∧
      (process defaultConfig exEnv exCacheFull 10 exNotif).2.2.cache_puts = [] ∧
      (process defaultConfig exEnv exCacheFull 10 exNotif).2.2.sends.map
          (fun r => r.message) = [format_reply defaultConfig "S0"] ∧
      (process defaultConfig exEnv exCacheFull 10 exNotif).2.1 =
        (⟨100, 2, [⟨"BV1", "S0", 50⟩], 1, 0⟩ : SummaryCache)) :=
  ⟨((claim_C10_empty_cached_artifact defaultConfig exEnv exCacheEmptyStr 10 exNotif
        exVideo ⟨100, 2, [⟨"BV1", "", 50⟩], 1, 0⟩ rfl rfl (by decide)).1
      (by decide)).2 none "SUM" rfl rfl (by decide),
   ((claim_C10_empty_cached_artifact defaultConfig exEnv exCacheEmptyStr 10 exNotifCJK
        exVideo ⟨100, 2, [⟨"BV1", "", 50⟩], 1, 0⟩ rfl rfl (by decide)).1
      (by decide)).2 none "SUM" rfl rfl (by decide),
   (claim_C10_empty_cached_artifact defaultConfig exEnv exCacheFull 10 exNotif
        exVideo ⟨100, 2, [⟨"BV1", "S0", 50⟩], 1, 0⟩ rfl rfl (by decide)).2
      "S0" (by decide) (by decide)⟩
